import Mathlib

/-!
Verification of the SR-Forge pipeline probe script (`probe_script.py`).

The development shallowly embeds the probe script's data model and
operations:

* `CVal` models an OmegaConf configuration value (`DictConfig` nodes,
  `ListConfig` lists, strings, booleans, integers and `None`);
* `_apply_overrides`, `stripSideEffects` / `restore` and `navigate` model
  the config-tree operations of `_apply_overrides`, the strip/restore
  section of `_probe_node` (lines 272-309) and the path navigation of
  `_probe_dataset`;
* `PyVal` / `Info` model runtime values and the descriptor dictionaries
  built by `_snapshot_value`; `Entry` / `Snapshot` model entries and the
  dictionaries built by `_snapshot_entry`;
* `PTree` / `probeNode` model the recursive prober `_probe_node`, with the
  external resolver, the first-entry fetch and the transform callables
  supplied as oracles (`Except`-valued data); `mainOutput` models the
  driver `main` / `_probe_dataset` composition.

Python `None` is modelled by `CVal.vnull` (for config values) and by
`Option.none` (for absent JSON fields).  A raised Python exception is
modelled by `Except.error` carrying `str(e)`; `traceback.format_exc()` is
abstracted as `tbText` of the message.
-/

set_option maxRecDepth 8000

/- ── String utilities ─────────────────────────────────────────────── -/

/-- Lexicographic comparison of character lists by Unicode scalar value,
the order Python's `sorted` uses on strings. -/
def charsLe : List Char → List Char → Bool
  | [], _ => true
  | _ :: _, [] => false
  | a :: as, b :: bs =>
    if a < b then true
    else if a = b then charsLe as bs
    else false

/-- Python string comparison `a <= b` (code-point lexicographic). -/
def strLe (a b : String) : Bool := charsLe a.data b.data

/-- Python `str.split(sep)` on character lists (always returns at least
one group; an empty input gives `[[]]`). -/
def splitChars (sep : Char) : List Char → List (List Char)
  | [] => [[]]
  | c :: rest =>
    let r := splitChars sep rest
    if c = sep then [] :: r
    else
      match r with
      | [] => [[c]]
      | g :: gs => (c :: g) :: gs

/-- Python `s.split('.')`. -/
def splitDots (s : String) : List String := (splitChars '.' s.data).map String.mk

/-- Python `str(x).split('.')[-1]` — the last dotted component; the
default is never used since `split` always returns a non-empty list. -/
def lastComp (s : String) : String := (splitDots s).getLastD s

/-- Stand-in for `traceback.format_exc()`: the traceback text is
abstracted as a tagged copy of the exception message. -/
def tbText (msg : String) : String := "Traceback: " ++ msg

/- ── Config Tree model (OmegaConf values) ─────────────────────────── -/

/-- An OmegaConf configuration value: a `DictConfig` mapping (association
list in document order), a `ListConfig`, or a scalar (`str`, `bool`,
`int`, `None`). -/
inductive CVal where
  | node (fields : List (String × CVal))
  | vlist (elems : List CVal)
  | vstr (s : String)
  | vbool (b : Bool)
  | vint (n : Int)
  | vnull

/-- Python `value is None` (an identity test against the `None`
singleton, i.e. a constructor test). -/
def CVal.isNull : CVal → Bool
  | .vnull => true
  | _ => false

/-- Update the value stored under the first occurrence of `key`; identity
when the key is absent (Python dict assignment to an existing key). -/
def setKey : List (String × CVal) → String → CVal → List (String × CVal)
  | [], _, _ => []
  | (k, v) :: rest, key, nv =>
    if k = key then (k, nv) :: rest else (k, v) :: setKey rest key nv

/-- Python dict assignment `d[k] = v`: update the existing binding, or
append a new one. -/
def setKeyOrAdd (l : List (String × CVal)) (key : String) (nv : CVal) :
    List (String × CVal) :=
  if (l.lookup key).isSome then setKey l key nv else l ++ [(key, nv)]

/-- Python `str(value)` for config values.  Scalars render as in Python;
the rendering of container values is abstracted (it is never used by the
probe on containers, only on `root` path parameters which are strings). -/
def strOf : CVal → String
  | .vstr s => s
  | .vbool true => "True"
  | .vbool false => "False"
  | .vint n => toString n
  | .vnull => "None"
  | .node _ => "<DictConfig>"
  | .vlist _ => "<ListConfig>"

/- `_apply_overrides(node, overrides)` (probe_script.py lines 178-193).
The Python function begins every call with `if not overrides: return`;
since `overrides` is constant along the recursion, the check is modelled
once in the entry point `_apply_overrides` and the recursive workers
assume a non-empty mapping (for an empty mapping they are never run).
The source updates `params.root` first and then iterates over all params
children, recursing into `DictConfig` children holding `_target`; after a
root replacement the `root` entry holds a plain string, which the child
loop ignores, so the two passes touch disjoint entries and are modelled
as one traversal (`overrideEntry` handles the `root` match first, exactly
as the source does before the child loop reaches that key). -/

mutual

/-- Body of `_apply_overrides` on a `DictConfig` node: rebuild the node
with its `params` entry processed; non-dict nodes are left untouched
(the source guards with `isinstance(node, DictConfig)`). -/
def applyNode (ov : List (String × String)) : CVal → CVal
  | .node fields => .node (overrideFields ov fields)
  | v => v

/-- Process the top-level entries of a node: only the `params` entry is
transformed (source: `if 'params' in node and node.params is not None`). -/
def overrideFields (ov : List (String × String)) :
    List (String × CVal) → List (String × CVal)
  | [] => []
  | (k, v) :: rest =>
    (k, if k = "params" then overrideParams ov v else v) :: overrideFields ov rest

/-- Transform the value of the `params` entry; `None` or non-dict params
are left untouched. -/
def overrideParams (ov : List (String × String)) : CVal → CVal
  | .node pf => .node (overrideParamEntries ov pf)
  | v => v

/-- Walk the entries of `params`. -/
def overrideParamEntries (ov : List (String × String)) :
    List (String × CVal) → List (String × CVal)
  | [] => []
  | (k, v) :: rest => (k, overrideEntry ov k v) :: overrideParamEntries ov rest

/-- One `params` entry: a `root` entry whose stringified value matches an
override key is replaced by the mapped value (source lines 186-189);
otherwise a `DictConfig` child holding `_target` is processed recursively
(source lines 190-193, modelling the recursive `_apply_overrides` call on
a non-empty mapping). -/
def overrideEntry (ov : List (String × String)) (k : String) (v : CVal) : CVal :=
  match (if k = "root" then ov.lookup (strOf v) else none) with
  | some w => .vstr w
  | none =>
    match v with
    | .node cf =>
      if (cf.lookup "_target").isSome then .node (overrideFields ov cf) else .node cf
    | _ => v

end

/-- `_apply_overrides` entry point: `if not overrides: return` and then
the recursive walk. -/
def _apply_overrides (ov : List (String × String)) (node : CVal) : CVal :=
  if ov.isEmpty then node else applyNode ov node

/- ── stripSideEffects / restore (probe_script.py lines 272-309) ───── -/

/-- Undo token of the strip section: `saved_transforms` (a `CVal`, with
Python's `None` represented by `CVal.vnull`, conflating "nothing saved"
with "the saved value was None" exactly as the source's `is None` checks
do), `saved_transforms_location` (`'params'` / `'node'` / unset) and
`saved_cache` in insertion order (`cache_dir` before `recache`). -/
structure UndoToken where
  saved_transforms : CVal
  saved_transforms_location : Option String
  saved_cache : List (String × CVal)

/-- The cache-neutralizing part of the strip section (lines 282-288):
null out `cache_dir` and set `recache` to `False` inside `params`,
remembering prior values in `saved_cache` insertion order. -/
def stripCache (pf : List (String × CVal)) :
    List (String × CVal) × List (String × CVal) :=
  let t2 : List (String × CVal) × List (String × CVal) :=
    match pf.lookup "cache_dir" with
    | some cv => (setKey pf "cache_dir" .vnull, [("cache_dir", cv)])
    | none => (pf, [])
  match t2.1.lookup "recache" with
  | some rv => (setKey t2.1 "recache" (.vbool false), t2.2 ++ [("recache", rv)])
  | none => t2

/-- The `params`-level part of the strip section (lines 276-288): detach
`transforms` if present (remembering it and the location `'params'`),
then neutralize the cache options.  Returns the stripped `params`
entries, `saved_transforms`, `saved_transforms_location` and
`saved_cache`. -/
def stripParams (pf : List (String × CVal)) :
    List (String × CVal) × CVal × Option String × List (String × CVal) :=
  let t1 : List (String × CVal) × CVal × Option String :=
    match pf.lookup "transforms" with
    | some tv => (setKey pf "transforms" .vnull, tv, some "params")
    | none => (pf, .vnull, none)
  let c := stripCache t1.1
  (c.1, t1.2.1, t1.2.2, c.2)

/-- The strip section of `_probe_node` (lines 272-292): detach
`transforms` (from `params` if present there, else from the node), null
out `cache_dir` and set `recache` to `False`, remembering prior values.
Only a `DictConfig`-valued `params` is inspected (`node.params is not
None`); `_probe_node` is only called on dict nodes, other values are
returned unchanged. -/
def stripSideEffects (node : CVal) : CVal × UndoToken :=
  match node with
  | .node fields =>
    let step1 : List (String × CVal) × CVal × Option String × List (String × CVal) :=
      match fields.lookup "params" with
      | some (.node pf) =>
        let p := stripParams pf
        (setKey fields "params" (.node p.1), p.2.1, p.2.2.1, p.2.2.2)
      | _ => (fields, .vnull, none, [])
    if step1.2.1.isNull then
      match step1.1.lookup "transforms" with
      | some tv =>
        (.node (setKey step1.1 "transforms" .vnull), ⟨tv, some "node", step1.2.2.2⟩)
      | none => (.node step1.1, ⟨step1.2.1, step1.2.2.1, step1.2.2.2⟩)
    else (.node step1.1, ⟨step1.2.1, step1.2.2.1, step1.2.2.2⟩)
  | v => (v, ⟨.vnull, none, []⟩)

/-- The cache-restoring loop of the restore section (lines 307-309):
`for k, v in saved_cache.items(): node.params[k] = v`. -/
def restoreCache (sc : List (String × CVal)) (pf : List (String × CVal)) :
    List (String × CVal) :=
  sc.foldl (fun acc kv => setKeyOrAdd acc kv.1 kv.2) pf

/-- The transforms-restoring part of the restore section (lines 302-306):
`if saved_transforms is not None:` write it back at the recorded location
(`params.transforms` or the node's own `transforms`). -/
def restoreTransforms (fields : List (String × CVal)) (tok : UndoToken) :
    List (String × CVal) :=
  if tok.saved_transforms.isNull then fields
  else if tok.saved_transforms_location = some "params" then
    match fields.lookup "params" with
    | some (.node pf) =>
      setKey fields "params" (.node (setKey pf "transforms" tok.saved_transforms))
    | _ => fields
  else setKey fields "transforms" tok.saved_transforms

/-- The cache-restoring part of the restore section (lines 307-309),
guarded by `if 'params' in node and node.params is not None`. -/
def restoreCachePhase (fields1 : List (String × CVal))
    (sc : List (String × CVal)) : List (String × CVal) :=
  match fields1.lookup "params" with
  | some (.node pf) => setKey fields1 "params" (.node (restoreCache sc pf))
  | _ => fields1

/-- The restore section of `_probe_node` (lines 301-309): put back the
saved `transforms` (if one was saved, i.e. not `None`) at the recorded
location, then write every saved cache entry back into `params`. -/
def restore (node : CVal) (tok : UndoToken) : CVal :=
  match node with
  | .node fields =>
    .node (restoreCachePhase (restoreTransforms fields tok) tok.saved_cache)
  | v => v

/-- Lines 294-309 of `_probe_node` as executed around the external
resolver call: strip, instantiate (the oracle `inst` models
`ConfigResolver(resolver.config)(node)`), and restore.  The resolver call
at line 297 is not inside any `try`, so when it raises, the exception
propagates out of `_probe_node` and the restore block of lines 301-309 is
never executed: the function returns the final state of the config node
together with whether instantiation succeeded. -/
def stripInstantiateRestore (inst : CVal → Except String Unit) (node : CVal) :
    CVal × Bool :=
  let p := stripSideEffects node
  match inst p.1 with
  | .error _ => (p.1, false)
  | .ok _ => (restore p.1 p.2, true)

/- ── Path navigation (probe_script.py lines 200-203) ──────────────── -/

/-- The navigation loop of `_probe_dataset`: `for part in
dataset_path.split('.'): node = node[part]`.  A missing key or an attempt
to index a non-dict value raises. -/
def navigate : CVal → List String → Except String CVal
  | node, [] => .ok node
  | node, p :: rest =>
    match node with
    | .node fields =>
      match fields.lookup p with
      | some v => navigate v rest
      | none => .error ("Key " ++ p ++ " is not in struct")
    | _ => .error ("Cannot index value with " ++ p)

/- ── Runtime value model (Value Snapshotter) ──────────────────────── -/

/-- A runtime value as dispatched on by `_snapshot_value`'s `isinstance`
chain: a torch tensor, a numpy array, a dict, a list or tuple, a scalar
(`str` / `int` / `float` / `bool`), or anything else.  Numeric array
contents are modelled as the exact list of (integer-valued) elements in
flattened order; `castOk` is false when the float cast of the value
(`v.float()` / `v.astype(float)`) raises, e.g. for a complex dtype.
`dtype` is carried as the display string the source computes (for tensors
already with the `torch.` prefix removed); `esize` is `element_size()`
and `nbytes` is `v.nbytes`.

A `PyVal` represents a value all of whose unguarded duck-typed calls
succeed: `rep` is the string `repr(v)` returns, `entries` the bindings
`len(v)` / `v.items()` / `str(dk)` deliver, `elems` the elements
iteration yields.  The source performs those calls outside any
`try/except` (lines 96-106, 157, 159), and `isinstance` also matches
subclasses with overridden methods, so on an ill-behaved value the call
itself raises out of `_snapshot_value`; that failure mode is modelled
separately by `PyObj` and `_snapshot_value_run` below, not by this
type. -/
inductive PyVal where
  | tensor (dtype : String) (esize : Nat) (shape : List Nat) (data : List Int) (castOk : Bool)
  | ndarr (dtype : String) (nbytes : Nat) (shape : List Nat) (data : List Int) (castOk : Bool)
  | pydict (entries : List (String × PyVal))
  | pyseq (isTuple : Bool) (elems : List PyVal)
  | pyscalar (ty : String) (rep : String)
  | pyother (ty : String) (rep : String)

/-- Python `type(v).__module__ + '.' + type(v).__qualname__`. -/
def pythonTypeOf : PyVal → String
  | .tensor .. => "torch.Tensor"
  | .ndarr .. => "numpy.ndarray"
  | .pydict _ => "builtins.dict"
  | .pyseq false _ => "builtins.list"
  | .pyseq true _ => "builtins.tuple"
  | .pyscalar ty _ => ty
  | .pyother ty _ => ty

/-- The descriptor dictionary built by `_snapshot_value` (lines 48-56):
every field starts as `None` and branches fill some of them in. -/
structure Info where
  key : String
  pythonType : String
  shape : Option String
  dtype : Option String
  minValue : Option String
  maxValue : Option String
  meanValue : Option String
  stdValue : Option String
  preview : Option String
  sizeBytes : Option Nat
  children : Option (List Info)

/-- Minimum of an integer list (only applied to non-empty data). -/
def intMinOf : List Int → Int
  | [] => 0
  | a :: rest => rest.foldl min a

/-- Maximum of an integer list (only applied to non-empty data). -/
def intMaxOf : List Int → Int
  | [] => 0
  | a :: rest => rest.foldl max a

/-- Mean of an integer list as an exact rational. -/
def meanQ (l : List Int) : ℚ := (l.sum : ℚ) / (l.length : ℚ)

/-- Sum of squared deviations from the mean. -/
def sqDevSum (l : List Int) : ℚ := (l.map (fun x => ((x : ℚ) - meanQ l) ^ 2)).sum

/-- Unbiased sample variance (`torch.std` squares to this; a single
element gives torch's NaN, abstracted as 0). -/
def sampleVarQ (l : List Int) : ℚ :=
  if l.length ≤ 1 then 0 else sqDevSum l / ((l.length : ℚ) - 1)

/-- Population variance (`numpy.std` squares to this). -/
def popVarQ (l : List Int) : ℚ := sqDevSum l / (l.length : ℚ)

/-- Render one statistic.  The source formats floats with `f'{x:.6g}'`;
the float formatting has no exact rational counterpart, so statistics are
rendered as exact rationals, and the standard deviation as the variance
tagged `sqrt` (the numeric text is not specification-relevant, only
whether the statistic is present). -/
def fmtStat (q : ℚ) : String := toString q

/-- The four statistics strings of a tensor's data (`fv.min/max/mean/std`
with `torch.std` unbiased). -/
def tensorStatQuad (data : List Int) :
    Option String × Option String × Option String × Option String :=
  (some (fmtStat (intMinOf data)), some (fmtStat (intMaxOf data)),
   some (fmtStat (meanQ data)), some ("sqrt " ++ fmtStat (sampleVarQ data)))

/-- The four statistics strings of numpy data (`numpy.std` population). -/
def ndarrStatQuad (data : List Int) :
    Option String × Option String × Option String × Option String :=
  (some (fmtStat (intMinOf data)), some (fmtStat (intMaxOf data)),
   some (fmtStat (meanQ data)), some ("sqrt " ++ fmtStat (popVarQ data)))

/-- Byte size contributed by a direct container element in the
`total_bytes` loops (lines 97-104 and 111-118): tensors contribute
`element_size() * nelement()`, numpy arrays `nbytes`, all else 0. -/
def bytesOfElem : PyVal → Nat
  | .tensor _ es _ data _ => es * data.length
  | .ndarr _ nb _ _ _ => nb
  | _ => 0

/-- The synthetic `... N more` child appended when a sequence is
truncated to 200 children (lines 148-153). -/
def moreSentinel (n : Nat) : Info :=
  { key := "... " ++ toString n ++ " more", pythonType := "",
    shape := none, dtype := none, minValue := none, maxValue := none,
    meanValue := none, stdValue := none, preview := none, sizeBytes := none,
    children := none }

/-- The non-empty tensors of a list together with their cast flags
(line 125: `[t for t in v if isinstance(t, torch.Tensor) and t.numel() > 0]`). -/
def nonEmptyTensors (elems : List PyVal) : List (List Int × Bool) :=
  elems.filterMap fun e =>
    match e with
    | .tensor _ _ _ d c => if d.isEmpty then none else some (d, c)
    | _ => none

/-- The non-empty numpy arrays of a list together with their cast flags
(line 136). -/
def nonEmptyArrays (elems : List PyVal) : List (List Int × Bool) :=
  elems.filterMap fun e =>
    match e with
    | .ndarr _ _ _ d c => if d.isEmpty then none else some (d, c)
    | _ => none

/-- Aggregate statistics of a homogeneous tensor/array list (lines
119-143).  `torch.cat` / `np.concatenate` of an empty list raises, and a
failing float cast of any included element raises; both exceptions are
swallowed leaving the statistics absent. -/
def seqAggStats (elems : List PyVal) :
    Option String × Option String × Option String × Option String :=
  match elems with
  | [] => (none, none, none, none)
  | first :: _ =>
    match first with
    | .tensor .. =>
      let ts := nonEmptyTensors elems
      if !ts.isEmpty && ts.all (fun p => p.2) then
        tensorStatQuad ((ts.map fun p => p.1).flatten)
      else (none, none, none, none)
    | .ndarr .. =>
      let as := nonEmptyArrays elems
      if !as.isEmpty && as.all (fun p => p.2) then
        ndarrStatQuad ((as.map fun p => p.1).flatten)
      else (none, none, none, none)
    | _ => (none, none, none, none)

/-- The aggregate `shape` string of a homogeneous tensor/array list,
`f'[{len(v)}x{list(first.shape)}]'`, set whenever the list is non-empty
and its first element is a tensor/array (before the stats `try`). -/
def seqAggShape (elems : List PyVal) : Option String :=
  match elems with
  | [] => none
  | first :: _ =>
    match first with
    | .tensor _ _ fsh _ _ =>
      some ("[" ++ toString elems.length ++ "x" ++ toString fsh ++ "]")
    | .ndarr _ _ fsh _ _ =>
      some ("[" ++ toString elems.length ++ "x" ++ toString fsh ++ "]")
    | _ => none

/-- `_snapshot_value(v, key, depth)` (lines 43-161).  Every recursive
call decreases `depth` by one, and no recursion happens at depth 0, so
the function is defined by recursion on `depth`; it is total — every
potentially-raising statistic computation is wrapped in `try/except` in
the source and is modelled by its guard condition.  Python `repr` slicing
`repr(v)[:100]` is modelled on character lists. -/
def _snapshot_value (v : PyVal) (key : String) (depth : Nat) : Info :=
  match v with
  | .tensor dt es _sh data castOk =>
    let stats := if castOk && !data.isEmpty then tensorStatQuad data
                 else (none, none, none, none)
    { key := key, pythonType := "torch.Tensor",
      shape := some (toString _sh), dtype := some dt,
      minValue := stats.1, maxValue := stats.2.1,
      meanValue := stats.2.2.1, stdValue := stats.2.2.2,
      preview := some (toString (data.take 8)),
      sizeBytes := some (es * data.length), children := none }
  | .ndarr dt nb _sh data castOk =>
    let stats := if castOk && !data.isEmpty then ndarrStatQuad data
                 else (none, none, none, none)
    { key := key, pythonType := "numpy.ndarray",
      shape := some (toString _sh), dtype := some dt,
      minValue := stats.1, maxValue := stats.2.1,
      meanValue := stats.2.2.1, stdValue := stats.2.2.2,
      preview := some (toString (data.take 8)),
      sizeBytes := some nb, children := none }
  | .pydict entries =>
    let tb := (entries.map fun kv => bytesOfElem kv.2).sum
    { key := key, pythonType := "builtins.dict",
      shape := none, dtype := none,
      minValue := none, maxValue := none, meanValue := none, stdValue := none,
      preview := some ("dict(" ++ toString entries.length ++ " keys)"),
      sizeBytes := if 0 < tb then some tb else none,
      children :=
        match depth with
        | 0 => none
        | d + 1 =>
          if entries.length ≤ 200 then
            some (entries.map fun kv => _snapshot_value kv.2 kv.1 d)
          else none }
  | .pyseq isTuple elems =>
    let tname := if isTuple then "tuple" else "list"
    let tb := (elems.map bytesOfElem).sum
    let stats := seqAggStats elems
    { key := key, pythonType := pythonTypeOf (.pyseq isTuple elems),
      shape := seqAggShape elems, dtype := none,
      minValue := stats.1, maxValue := stats.2.1,
      meanValue := stats.2.2.1, stdValue := stats.2.2.2,
      preview := some (tname ++ "(len=" ++ toString elems.length ++ ")"),
      sizeBytes := if 0 < tb then some tb else none,
      children :=
        match depth with
        | 0 => none
        | d + 1 =>
          let kids := (elems.take 200).enum.map fun p =>
            _snapshot_value p.2 ("[" ++ toString p.1 ++ "]") d
          some (if 200 < elems.length then
                  kids ++ [moreSentinel (elems.length - 200)]
                else kids) }
  | .pyscalar ty rep =>
    { key := key, pythonType := ty,
      shape := none, dtype := none,
      minValue := none, maxValue := none, meanValue := none, stdValue := none,
      preview := some rep, sizeBytes := none, children := none }
  | .pyother ty rep =>
    { key := key, pythonType := ty,
      shape := none, dtype := none,
      minValue := none, maxValue := none, meanValue := none, stdValue := none,
      preview := some (String.mk (rep.data.take 100)), sizeBytes := none,
      children := none }

/- ── Entries and snapshots ────────────────────────────────────────── -/

/-- An Entry: a key-addressable record of runtime values.  `hasKeys`
models `hasattr(entry, 'keys')`; `is_batched` models the attribute read
by `getattr(entry, 'is_batched', False)`. -/
structure Entry where
  fields : List (String × PyVal)
  is_batched : Bool
  hasKeys : Bool

/-- Python `entry[key]` for a key coming from `entry.keys()` (always
present; the default is unreachable). -/
def entryGet (e : Entry) (key : String) : PyVal :=
  (e.fields.lookup key).getD (.pyother "" "")

/-- Python `sorted` on a list of strings (code-point lexicographic;
Python's sort is stable, but on plain strings stability is unobservable,
so insertion sort computes the same list). -/
def sortKeys (l : List String) : List String :=
  List.insertionSort (fun a b => strLe a b = true) l

/-- One snapshot dictionary as built by `_snapshot_entry` (lines 164-173)
and by the error branches of `_probe_node`; `errorMessage` and
`errorTraceback` are absent (`none`) on ordinary snapshots. -/
structure Snapshot where
  stepLabel : String
  stepIndex : Nat
  fields : List Info
  isBatched : Bool
  errorMessage : Option String
  errorTraceback : Option String

/-- `_snapshot_entry(entry, label, step_index)` (lines 164-173):
`keys = sorted(entry.keys()) if hasattr(entry, 'keys') else []`, then one
`_snapshot_value` per key at the default depth 2. -/
def _snapshot_entry (entry : Entry) (label : String) (step_index : Nat) : Snapshot :=
  let keys := if entry.hasKeys then sortKeys (entry.fields.map Prod.fst) else []
  { stepLabel := label, stepIndex := step_index,
    fields := keys.map fun k => _snapshot_value (entryGet entry k) k 2,
    isBatched := entry.is_batched,
    errorMessage := none, errorTraceback := none }

/-- An arbitrary runtime object as handed to `_snapshot_value`, before
any duck-typed call is made.  `wellBehaved v` is a value on which every
unguarded call succeeds, behaving as the `PyVal` `v`; the remaining
constructors are objects on which one of the source's unguarded calls
raises (with `str(e) = msg`):

* `scalarReprRaises`: an instance of a `str`/`int`/`float`/`bool`
  subclass whose `__repr__` raises — line 157 `repr(v)` is outside any
  `try/except`;
* `otherReprRaises`: an object matching none of the `isinstance` arms
  whose `__repr__` raises — line 159 `repr(v)[:100]` is unguarded;
* `dictProtocolRaises`: a `dict` subclass whose `len` / `items` /
  key-`str` calls raise — lines 96-106 are unguarded.

A container holding an ill-behaved value is itself ill-behaved (the
recursive call at line 106 / 146 propagates the child's exception) and
is modelled directly by the raising constructor of the innermost
unguarded call. -/
inductive PyObj where
  | wellBehaved (v : PyVal)
  | scalarReprRaises (ty : String) (msg : String)
  | otherReprRaises (ty : String) (msg : String)
  | dictProtocolRaises (ty : String) (msg : String)

/-- The object's unguarded duck-typed calls all succeed. -/
def PyObj.isWellBehaved : PyObj → Bool
  | .wellBehaved _ => true
  | _ => false

/-- The run of `_snapshot_value(v, key, depth)` on an arbitrary object:
on a well-behaved value every potentially-raising computation is inside
a `try/except` (modelled by its guard in `_snapshot_value`), so the call
returns a descriptor; on an ill-behaved value the corresponding
unguarded call (line 96-106, 157 or 159) raises and the exception
propagates to the caller — through `_snapshot_entry`'s field
comprehension (line 167) and out of `_probe_node` (line 313). -/
def _snapshot_value_run : PyObj → String → Nat → Except String Info
  | .wellBehaved v, key, depth => .ok (_snapshot_value v key depth)
  | .scalarReprRaises _ msg, _, _ => .error msg
  | .otherReprRaises _ msg, _, _ => .error msg
  | .dictProtocolRaises _ msg, _, _ => .error msg

/- ── Recursive prober model ───────────────────────────────────────── -/

/-- The probe-result dictionary returned by `_probe_node` (lines
357-362): `datasetName`, `datasetTarget`, `snapshots`, `innerResult`. -/
inductive ProbeResult where
  | mk (datasetName : String) (datasetTarget : String)
       (snapshots : List Snapshot) (innerResult : Option ProbeResult)

def ProbeResult.datasetName : ProbeResult → String
  | .mk n _ _ _ => n

def ProbeResult.datasetTarget : ProbeResult → String
  | .mk _ t _ _ => t

def ProbeResult.snapshots : ProbeResult → List Snapshot
  | .mk _ _ s _ => s

def ProbeResult.innerResult : ProbeResult → Option ProbeResult
  | .mk _ _ _ i => i

/-- Python truthiness of `s.get('errorMessage')`: an absent key, `None`
or an empty string are all falsy. -/
def truthyMsg : Option String → Bool
  | none => false
  | some m => m != ""

/-- Line 243: `any(s.get('errorMessage') for s in
inner_result.get('snapshots', []))` — only the immediate inner result's
own snapshot list is inspected. -/
def innerHasErr : Option ProbeResult → Bool
  | none => false
  | some r => r.snapshots.any fun s => truthyMsg s.errorMessage

/-- A node anywhere in a probe-result tree has a recorded failure (a
snapshot whose `errorMessage` is truthy), at this level or below.  This
is the property the specification's propagation invariant quantifies
over. -/
def ProbeResult.hasFailure : ProbeResult → Bool
  | .mk _ _ snaps inner =>
    snaps.any (fun s => truthyMsg s.errorMessage) ||
      (match inner with
       | some r => r.hasFailure
       | none => false)

/-- The error snapshot appended by the stage loop (lines 326-333 and
347-354) and by the inner-probe except handler (lines 231-236). -/
def errSnap (label : String) (i : Nat) (msg : String) : Snapshot :=
  { stepLabel := label, stepIndex := i, fields := [], isBatched := false,
    errorMessage := some msg, errorTraceback := some (tbText msg) }

/-- A pipeline node as consumed by `_probe_node`, with the external
collaborators as oracles: `target` is the node's `_target` string,
`inst` the outcome of instantiating the node through `ConfigResolver`
(line 297), `entry0` the outcome of `dataset[0]` (line 312), and
`stages` the resolved transform sequence — for each stage its display
name `type(transform).__name__` and its application `transform(entry)`
as a fallible function (lines 316-355; for the raw-config branch the
in-`try` instantiation of a transform is part of the same fallible
call).  `wrap` marks a node whose params contain a wrapped pipeline
node (the first `DictConfig` child with `_target`, lines 220-239). -/
inductive PTree where
  | leaf (target : String) (inst : Except String Unit)
         (entry0 : Except String Entry)
         (stages : List (String × (Entry → Except String Entry)))
  | wrap (target : String) (inst : Except String Unit)
         (entry0 : Except String Entry)
         (stages : List (String × (Entry → Except String Entry)))
         (inner : PTree)

def PTree.target : PTree → String
  | .leaf t _ _ _ => t
  | .wrap t _ _ _ _ => t

/-- The transform loop (lines 316-355): apply stages left to right,
snapshotting after each success; on the first exception append one error
snapshot and `break`. -/
def stageLoop : List (String × (Entry → Except String Entry)) → Entry → Nat →
    List Snapshot
  | [], _, _ => []
  | (tn, f) :: rest, e, i =>
    match f e with
    | .ok e2 => _snapshot_entry e2 tn i :: stageLoop rest e2 (i + 1)
    | .error m => [errSnap tn i m]

/-- The part of `_probe_node` after inner probing (lines 241-362), given
the already-computed `inner_result`: the skip check, instantiation (a
raised exception propagates — line 297 is not in a `try`), the first
entry fetch (line 312, also not in a `try`), the initial snapshot and the
transform loop. -/
def probeSelf (target : String) (inst : Except String Unit)
    (entry0 : Except String Entry)
    (stages : List (String × (Entry → Except String Entry)))
    (inner_result : Option ProbeResult) : Except String ProbeResult :=
  if innerHasErr inner_result then
    .ok (.mk (lastComp target) target [] inner_result)
  else
    match inst with
    | .error e => .error e
    | .ok _ =>
      match entry0 with
      | .error e => .error e
      | .ok e0 =>
        .ok (.mk (lastComp target) target
          (_snapshot_entry e0 (lastComp target) 0 :: stageLoop stages e0 1)
          inner_result)

/-- `_probe_node(resolver, node, path)` (lines 214-362).  For a wrapped
node the inner probe runs first inside a `try` (lines 225-238): a raised
exception is converted into a synthetic inner result holding one error
snapshot. -/
def probeNode : PTree → Except String ProbeResult
  | .leaf tgt inst e0 st => probeSelf tgt inst e0 st none
  | .wrap tgt inst e0 st c =>
    let inner_result : Option ProbeResult :=
      match probeNode c with
      | .ok r => some r
      | .error e =>
        some (.mk (lastComp c.target) c.target
          [errSnap (lastComp c.target) 0 e] none)
    probeSelf tgt inst e0 st inner_result

/- ── Driver model ─────────────────────────────────────────────────── -/

/-- The top-level response of single-result mode (lines 386-401). -/
structure Output where
  success : Bool
  result : Option ProbeResult
  errorMessage : Option String
  errorTraceback : Option String

/-- The `main` / `_probe_dataset` composition (lines 196-211 and
367-401): navigate to the target node, apply path overrides, probe, and
wrap the outcome; any exception escaping `_probe_dataset` (a bad path, or
a `_probe_node` failure at the root) is caught by `main`'s handler and
reported as a fatal result with no `ProbeResult`.  The external
resolver's behaviour on the located (overridden) config node is supplied
by the oracle `sem`. -/
def mainOutput (cfg : CVal) (dataset_path : String)
    (overrides : List (String × String)) (sem : CVal → PTree) : Output :=
  match navigate cfg (splitDots dataset_path) with
  | .error e => { success := false, result := none,
                  errorMessage := some e, errorTraceback := some (tbText e) }
  | .ok node =>
    match probeNode (sem (_apply_overrides overrides node)) with
    | .ok r => { success := true, result := some r,
                 errorMessage := none, errorTraceback := none }
    | .error e => { success := false, result := none,
                    errorMessage := some e, errorTraceback := some (tbText e) }

/- ── Specification-side predicates and measures ───────────────────── -/

/-- All four numeric aggregate fields of a descriptor are present. -/
def statsPresent (i : Info) : Bool :=
  i.minValue.isSome && i.maxValue.isSome && i.meanValue.isSome && i.stdValue.isSome

/-- The specification's "numeric array-like data": a numeric array value
(torch tensor or numpy array) — the taxonomy of §4.4 distinguishes
numeric array-like values from mappings and sequences. -/
def isNumericArrayLike : PyVal → Bool
  | .tensor .. => true
  | .ndarr .. => true
  | _ => false

/-- A numeric array value is non-empty. -/
def isNonEmptyArray : PyVal → Bool
  | .tensor _ _ _ data _ => !data.isEmpty
  | .ndarr _ _ _ data _ => !data.isEmpty
  | _ => false

/-- The exact condition under which `_snapshot_value` records the numeric
aggregates, read off the source: a non-empty tensor/array whose float
cast succeeds (lines 62-70 and 81-89), or a list/tuple whose first
element is a tensor (resp. array) such that the filtered non-empty
tensors (arrays) are themselves non-empty as a collection and all cast
successfully (lines 119-143). -/
def aggStatsPresent : PyVal → Bool
  | .tensor _ _ _ data castOk => castOk && !data.isEmpty
  | .ndarr _ _ _ data castOk => castOk && !data.isEmpty
  | .pyseq _ elems =>
    match elems with
    | [] => false
    | first :: _ =>
      match first with
      | .tensor .. =>
        let ts := nonEmptyTensors elems
        !ts.isEmpty && ts.all (fun p => p.2)
      | .ndarr .. =>
        let as := nonEmptyArrays elems
        !as.isEmpty && as.all (fun p => p.2)
      | _ => false
  | _ => false

mutual

/-- Nesting depth of a descriptor's children tree: 0 when `children` is
absent, otherwise one more than the deepest child. -/
def infoDepth : Info → Nat
  | ⟨_, _, _, _, _, _, _, _, _, _, none⟩ => 0
  | ⟨_, _, _, _, _, _, _, _, _, _, some cs⟩ => 1 + infoListDepth cs

/-- Maximum descriptor depth over a list. -/
def infoListDepth : List Info → Nat
  | [] => 0
  | i :: rest => max (infoDepth i) (infoListDepth rest)

end

/- ── Concrete instances for witnesses and counterexamples ─────────── -/

/-- A config node with strippable side effects: `transforms`,
`cache_dir` and `recache` all set inside `params`. -/
def c1Node : CVal :=
  .node [("_target", .vstr "pkg.DS"),
    ("params", .node [("root", .vstr "/old"),
      ("transforms", .vlist [.vstr "t1"]),
      ("cache_dir", .vstr "/tmp/cache"), ("recache", .vbool true)])]

/-- A resolver that raises on any node. -/
def c1FailInst : CVal → Except String Unit := fun _ => .error "init failed"

/-- A small entry with two fields, keys out of order. -/
def c2Entry : Entry :=
  ⟨[("b", .pyscalar "builtins.int" "2"), ("a", .pyscalar "builtins.int" "1")],
   false, true⟩

/-- Innermost pipeline node: instantiation succeeds, its single stage
raises. -/
def c2Inner : PTree :=
  .leaf "pkg.I" (.ok ()) (.ok c2Entry) [("Boom", fun _ => .error "boom")]

/-- Middle node wrapping `c2Inner`. -/
def c2Mid : PTree := .wrap "pkg.M" (.ok ()) (.ok c2Entry) [] c2Inner

/-- Outermost node wrapping `c2Mid`: its inner probe subtree contains a
failed step two levels down. -/
def c2Outer : PTree := .wrap "pkg.O" (.ok ()) (.ok c2Entry) [] c2Mid

/-- The probe result of `c2Inner`: an initial snapshot and one error
snapshot. -/
def c2InnerRes : ProbeResult :=
  .mk "I" "pkg.I" [_snapshot_entry c2Entry "I" 0, errSnap "Boom" 1 "boom"] none

/-- The probe result of `c2Mid`: skipped (empty snapshots) with the
failing inner result attached. -/
def c2MidRes : ProbeResult := .mk "M" "pkg.M" [] (some c2InnerRes)

/-- A one-node config tree whose `d` entry is the dataset node. -/
def c3Cfg : CVal := .node [("d", .node [("_target", .vstr "pkg.DS")])]

/-- Resolver semantics mapping every node to a root pipeline node whose
instantiation fails. -/
def c3Sem : CVal → PTree :=
  fun _ => .leaf "pkg.DS" (.error "init failed") (.ok c2Entry) []

/-- Entry used by the C3 witness. -/
def c3Entry : Entry := ⟨[("x", .pyscalar "builtins.int" "7")], false, true⟩

/-- Inner node with failing instantiation, wrapped by a healthy outer
node: the init failure is isolated. -/
def c3Wrapped : PTree :=
  .wrap "pkg.O" (.ok ()) (.ok c3Entry) []
    (.leaf "pkg.I" (.error "inner init failed") (.ok c3Entry) [])

/-- Resolver semantics mapping every node to `c3Wrapped`. -/
def c3SemWrapped : CVal → PTree := fun _ => c3Wrapped

/-- Entry used by the C4 witness. -/
def c4Entry : Entry := ⟨[("x", .pyscalar "builtins.int" "1")], false, true⟩

/-- Entry produced by the C4 witness's first stage. -/
def c4Entry2 : Entry := ⟨[("x", .pyscalar "builtins.int" "2")], false, true⟩

/-- Stage A of the C4 witness: succeeds, producing `c4Entry2`. -/
def c4StageA : Entry → Except String Entry := fun _ => .ok c4Entry2

/-- Stage B of the C4 witness: raises. -/
def c4StageB : Entry → Except String Entry := fun _ => .error "B failed"

/-- Stage C of the C4 witness: would succeed, but must never run. -/
def c4StageC : Entry → Except String Entry := fun e => .ok e

/-- A dict with 201 entries. -/
def c6BigDict : List (String × PyVal) :=
  (List.range 201).map fun i => (toString i, .pyscalar "builtins.int" (toString i))

/-- A list with 201 elements. -/
def c6BigSeq : List PyVal :=
  (List.range 201).map fun i => .pyscalar "builtins.int" (toString i)

/-- A list containing one non-empty tensor: a sequence, not numeric
array-like data, yet the source computes aggregate statistics for it. -/
def c7SeqOfTensor : PyVal := .pyseq false [.tensor "float32" 4 [2] [1, 2] true]

/-- A node whose `params.root` is `/old/path`, with a nested pipeline
child to exercise the recursive walk. -/
def c9Node : CVal :=
  .node [("_target", .vstr "pkg.DS"),
    ("params", .node [("root", .vstr "/old/path"),
      ("wrapped", .node [("_target", .vstr "pkg.Inner"),
        ("params", .node [("root", .vstr "/old/path")])])])]

/-- Entry for the C10 witness, keys deliberately unsorted. -/
def c10Entry1 : Entry :=
  ⟨[("hr", .pyscalar "builtins.int" "1"), ("lr", .pyscalar "builtins.int" "2")],
   false, true⟩

/-- The same bindings as `c10Entry1` in the opposite order. -/
def c10Entry2 : Entry :=
  ⟨[("lr", .pyscalar "builtins.int" "2"), ("hr", .pyscalar "builtins.int" "1")],
   false, true⟩

/-- An entry without a `keys()` method. -/
def c10NoKeys : Entry := ⟨[("a", .pyscalar "builtins.int" "1")], false, false⟩

/- ── Association-list lemmas ──────────────────────────────────────── -/

theorem lookup_setKey_eq (l : List (String × CVal)) (key : String) (nv : CVal) :
    (setKey l key nv).lookup key = (l.lookup key).map fun _ => nv := by
  induction l with
  | nil => simp [setKey]
  | cons hd tl ih =>
    obtain ⟨k, v⟩ := hd
    by_cases h : k = key
    · subst h; simp [setKey, List.lookup]
    · simp [setKey, h, List.lookup, beq_false_of_ne (Ne.symm h), ih]

theorem lookup_setKey_ne (l : List (String × CVal)) {k key : String}
    (h : k ≠ key) (nv : CVal) : (setKey l key nv).lookup k = l.lookup k := by
  induction l with
  | nil => simp [setKey]
  | cons hd tl ih =>
    obtain ⟨k2, v⟩ := hd
    by_cases h2 : k2 = key
    · subst h2; simp [setKey, List.lookup, beq_false_of_ne h]
    · simp [setKey, h2, List.lookup, ih]

theorem setKey_absent (l : List (String × CVal)) (key : String) (nv : CVal)
    (h : l.lookup key = none) : setKey l key nv = l := by
  induction l with
  | nil => simp [setKey]
  | cons hd tl ih =>
    obtain ⟨k, v⟩ := hd
    simp only [List.lookup] at h
    by_cases h2 : key = k
    · simp [h2] at h
    · simp only [beq_false_of_ne h2] at h
      have hne : k ≠ key := fun hh => h2 hh.symm
      simp [setKey, hne, ih h]

theorem setKey_setKey (l : List (String × CVal)) (key : String) (a b : CVal) :
    setKey (setKey l key a) key b = setKey l key b := by
  induction l with
  | nil => simp [setKey]
  | cons hd tl ih =>
    obtain ⟨k, v⟩ := hd
    by_cases h : k = key
    · subst h; simp [setKey]
    · simp [setKey, h, ih]

theorem setKey_same (l : List (String × CVal)) (key : String) (v : CVal)
    (h : l.lookup key = some v) : setKey l key v = l := by
  induction l with
  | nil => simp [setKey]
  | cons hd tl ih =>
    obtain ⟨k, w⟩ := hd
    by_cases h2 : k = key
    · subst h2
      simp [List.lookup] at h
      simp [setKey, h]
    · simp [List.lookup, beq_false_of_ne (Ne.symm h2)] at h
      simp [setKey, h2, ih h]

theorem setKey_comm (l : List (String × CVal)) {k1 k2 : String} (h : k1 ≠ k2)
    (a b : CVal) : setKey (setKey l k1 a) k2 b = setKey (setKey l k2 b) k1 a := by
  induction l with
  | nil => simp [setKey]
  | cons hd tl ih =>
    obtain ⟨k, v⟩ := hd
    by_cases h1 : k = k1
    · subst h1
      simp [setKey, h]
    · by_cases h2 : k = k2
      · subst h2
        simp [setKey, h1]
      · simp [setKey, h1, h2, ih]

theorem setKeyOrAdd_present (l : List (String × CVal)) (key : String) (nv : CVal)
    (h : (l.lookup key).isSome) : setKeyOrAdd l key nv = setKey l key nv := by
  simp [setKeyOrAdd, h]

/- ── C8: bad target path is fatal ─────────────────────────────────── -/

/-- Claim C8: for every request whose target node path cannot be
resolved, the probe's top-level result is a fatal error — `success` is
false, the error message and traceback are set, and no `ProbeResult` is
produced. -/
theorem C8_path_not_found (cfg : CVal) (path : String)
    (ov : List (String × String)) (sem : CVal → PTree) (e : String)
    (h : navigate cfg (splitDots path) = .error e) :
    mainOutput cfg path ov sem =
      { success := false, result := none,
        errorMessage := some e, errorTraceback := some (tbText e) } := by
  simp [mainOutput, h]

/-- Witness for C8 at a concrete config and a missing path segment. -/
theorem C8_path_not_found_witness :
    navigate c3Cfg (splitDots "missing") = .error "Key missing is not in struct" ∧
    mainOutput c3Cfg "missing" [] c3Sem =
      { success := false, result := none,
        errorMessage := some "Key missing is not in struct",
        errorTraceback := some (tbText "Key missing is not in struct") } :=
  ⟨rfl, C8_path_not_found c3Cfg "missing" [] c3Sem "Key missing is not in struct" rfl⟩

/- ── C4: strictly sequential, fail-fast stage application ─────────── -/

/-- Claim C4: stage application is strictly sequential left-to-right and
stops at the first failure.  For stages `[A, B] ++ tail` where `A`
succeeds and `B` raises, the node's snapshot list is exactly the initial
snapshot (index 0), the post-A snapshot (index 1) and one error entry for
B (index 2); the result does not depend on `tail`, so any stage `C`
after B is never invoked.  Ordinary snapshots carry no error message;
the error entry carries `str(e)`. -/
theorem C4_fail_fast (tgt : String) (e0 e1 : Entry) (nA nB : String)
    (fA fB : Entry → Except String Entry) (m : String)
    (hA : fA e0 = .ok e1) (hB : fB e1 = .error m) :
    (∀ tail : List (String × (Entry → Except String Entry)),
      probeNode (.leaf tgt (.ok ()) (.ok e0) ([(nA, fA), (nB, fB)] ++ tail)) =
        .ok (.mk (lastComp tgt) tgt
          [_snapshot_entry e0 (lastComp tgt) 0, _snapshot_entry e1 nA 1,
           errSnap nB 2 m] none)) ∧
    (∀ (e : Entry) (label : String) (i : Nat),
      (_snapshot_entry e label i).errorMessage = none) ∧
    (errSnap nB 2 m).stepIndex = 2 ∧ (errSnap nB 2 m).errorMessage = some m := by
  refine ⟨fun tail => ?_, fun e label i => rfl, rfl, rfl⟩
  simp [probeNode, probeSelf, innerHasErr, stageLoop, hA, hB]

/-- Witness for C4: a concrete three-stage pipeline `[A, B, C]` where B
fails; C is present but unreached. -/
theorem C4_fail_fast_witness :
    c4StageA c4Entry = .ok c4Entry2 ∧ c4StageB c4Entry2 = .error "B failed" ∧
    probeNode (.leaf "pkg.DS" (.ok ()) (.ok c4Entry)
        ([("A", c4StageA), ("B", c4StageB)] ++ [("C", c4StageC)])) =
      .ok (.mk "DS" "pkg.DS"
        [_snapshot_entry c4Entry "DS" 0, _snapshot_entry c4Entry2 "A" 1,
         errSnap "B" 2 "B failed"] none) :=
  ⟨rfl, rfl,
    (C4_fail_fast "pkg.DS" c4Entry c4Entry2 "A" "B" c4StageA c4StageB
      "B failed" rfl rfl).1 [("C", c4StageC)]⟩

/- ── C2: inner-failure propagation ────────────────────────────────── -/

/-- Counterexample to claim C2.  In the three-level pipeline `c2Outer`
(wrapping `c2Mid`, wrapping `c2Inner` whose stage fails), the inner probe
result attached to the outer node does contain a failed step two levels
down (`c2MidRes.hasFailure`), yet the outer node is not skipped: its
snapshot list is non-empty (the initial snapshot was taken, so
instantiation and the first-entry fetch were attempted).  The check at
line 243 inspects only the immediate inner result's own snapshots, and
`c2Mid` was itself skipped with an empty snapshot list. -/
theorem C2_counterexample :
    probeNode c2Outer =
      .ok (.mk "O" "pkg.O" [_snapshot_entry c2Entry "O" 0] (some c2MidRes)) ∧
    c2MidRes.hasFailure = true ∧
    ([_snapshot_entry c2Entry "O" 0] : List Snapshot) ≠ [] :=
  ⟨rfl, rfl, by simp⟩

/-- Amended claim C2: the skip policy propagates exactly the failures
recorded in the immediately inner node's own snapshot list.  If the inner
probe returns a result with a (truthy) error snapshot of its own — a step
error, or an init error caught and recorded at this level — the outer
node's snapshot list is empty, the inner result is attached, and the
outer node's instantiation, first-entry fetch and stages are never
consulted (the right-hand side is independent of `inst`, `entry0` and
`stages`).  A failure buried deeper, below an inner node that was itself
skipped with an empty snapshot list, does not propagate. -/
theorem C2_inner_failure_propagation (tgt : String) (inst : Except String Unit)
    (entry0 : Except String Entry)
    (stages : List (String × (Entry → Except String Entry))) (c : PTree) :
    (∀ rI : ProbeResult, probeNode c = .ok rI →
      (rI.snapshots.any fun s => truthyMsg s.errorMessage) = true →
      probeNode (.wrap tgt inst entry0 stages c) =
        .ok (.mk (lastComp tgt) tgt [] (some rI))) ∧
    (∀ e : String, probeNode c = .error e → e ≠ "" →
      probeNode (.wrap tgt inst entry0 stages c) =
        .ok (.mk (lastComp tgt) tgt []
          (some (.mk (lastComp c.target) c.target
            [errSnap (lastComp c.target) 0 e] none)))) := by
  constructor
  · intro rI h hfail
    simp [probeNode, h, probeSelf, innerHasErr, hfail]
  · intro e h he
    simp [probeNode, h, probeSelf, innerHasErr, errSnap, truthyMsg,
      ProbeResult.snapshots, he]

/-- Witness for C2 (amended): the failing `c2Inner` forces `c2Mid` into
the skipped shape. -/
theorem C2_inner_failure_propagation_witness :
    probeNode c2Inner = .ok c2InnerRes ∧
    (c2InnerRes.snapshots.any fun s => truthyMsg s.errorMessage) = true ∧
    probeNode c2Mid = .ok (.mk "M" "pkg.M" [] (some c2InnerRes)) :=
  ⟨rfl, rfl,
    (C2_inner_failure_propagation "pkg.M" (.ok ()) (.ok c2Entry) [] c2Inner).1
      c2InnerRes rfl rfl⟩

/- ── C3: init errors — isolation and root fatality ────────────────── -/

/-- Counterexample to claim C3: when instantiating the root (outermost)
pipeline node fails, the exception escapes `_probe_node` (line 297 is not
inside a `try`), `main` catches it, and the top-level response has
`success = false` with no `ProbeResult` — not `success = true` as the
claim states for every init failure. -/
theorem C3_counterexample :
    mainOutput c3Cfg "d" [] c3Sem =
      { success := false, result := none,
        errorMessage := some "init failed",
        errorTraceback := some (tbText "init failed") } := rfl

/-- Amended claim C3: an init failure of a wrapped (non-root) node is
isolated — the enclosing node's probe catches it, records it as an error
snapshot inside the inner result, skips the outer node, and the top-level
response still has `success = true` with a `ProbeResult`; the init error
snapshot sits at step index 0 with no fields, distinct from a per-stage
error at a positive index.  At the root node, however, an init failure is
fatal: `success = false`, the message and traceback are set, and no
`ProbeResult` is produced. -/
theorem C3_init_error_isolation (cfg : CVal) (path : String)
    (ov : List (String × String)) (sem : CVal → PTree) (node : CVal)
    (hnav : navigate cfg (splitDots path) = .ok node) :
    (∀ (tgt : String) (inst : Except String Unit)
       (entry0 : Except String Entry)
       (stages : List (String × (Entry → Except String Entry)))
       (c : PTree) (m : String),
      sem (_apply_overrides ov node) = .wrap tgt inst entry0 stages c →
      probeNode c = .error m → m ≠ "" →
      mainOutput cfg path ov sem =
        { success := true,
          result := some (.mk (lastComp tgt) tgt []
            (some (.mk (lastComp c.target) c.target
              [errSnap (lastComp c.target) 0 m] none))),
          errorMessage := none, errorTraceback := none }) ∧
    (∀ (tgt : String) (entry0 : Except String Entry)
       (stages : List (String × (Entry → Except String Entry))) (m : String),
      sem (_apply_overrides ov node) = .leaf tgt (.error m) entry0 stages →
      mainOutput cfg path ov sem =
        { success := false, result := none,
          errorMessage := some m, errorTraceback := some (tbText m) }) := by
  constructor
  · intro tgt inst entry0 stages c m hsem hc hm
    have h : probeNode (.wrap tgt inst entry0 stages c) =
        .ok (.mk (lastComp tgt) tgt []
          (some (.mk (lastComp c.target) c.target
            [errSnap (lastComp c.target) 0 m] none))) := by
      simp [probeNode, hc, probeSelf, innerHasErr, errSnap, truthyMsg,
        ProbeResult.snapshots, hm]
    simp [mainOutput, hnav, hsem, h]
  · intro tgt entry0 stages m hsem
    simp [mainOutput, hnav, hsem, probeNode, probeSelf, innerHasErr]

/-- Witness for C3 (amended): a concrete wrapped pipeline whose inner
node's instantiation fails — the top-level response is successful and
records the init error inside the result — and a concrete root init
failure, which is fatal. -/
theorem C3_init_error_isolation_witness :
    navigate c3Cfg (splitDots "d") = .ok (.node [("_target", .vstr "pkg.DS")]) ∧
    c3SemWrapped (_apply_overrides [] (.node [("_target", .vstr "pkg.DS")])) =
      .wrap "pkg.O" (.ok ()) (.ok c3Entry) []
        (.leaf "pkg.I" (.error "inner init failed") (.ok c3Entry) []) ∧
    probeNode (.leaf "pkg.I" (.error "inner init failed") (.ok c3Entry) []) =
      .error "inner init failed" ∧
    mainOutput c3Cfg "d" [] c3SemWrapped =
      { success := true,
        result := some (.mk "O" "pkg.O" []
          (some (.mk "I" "pkg.I" [errSnap "I" 0 "inner init failed"] none))),
        errorMessage := none, errorTraceback := none } :=
  ⟨rfl, rfl, rfl,
    (C3_init_error_isolation c3Cfg "d" [] c3SemWrapped
        (.node [("_target", .vstr "pkg.DS")]) rfl).1
      "pkg.O" (.ok ()) (.ok c3Entry) []
      (.leaf "pkg.I" (.error "inner init failed") (.ok c3Entry) [])
      "inner init failed" rfl rfl (by simp)⟩

/- ── C6: breadth cap and truncation sentinel ──────────────────────── -/

/-- Counterexample to claim C6: a mapping with 201 entries snapshotted at
positive depth yields no children at all (line 105 guards the dict child
recursion with `len(v) <= 200`), not 200 children plus a sentinel. -/
theorem C6_counterexample :
    200 < c6BigDict.length ∧
    (_snapshot_value (.pydict c6BigDict) "k" 1).children = none :=
  ⟨by simp [c6BigDict], rfl⟩

/-- Amended claim C6: for a sequence (list or tuple) with more than 200
elements, snapshotting at positive depth yields exactly the 200 element
descriptors plus one explicit `... N more` sentinel recording the number
of omitted elements; a mapping with more than 200 entries instead yields
no children at all. -/
theorem C6_truncation (isTuple : Bool) (elems : List PyVal) (key : String)
    (d : Nat) (h : 200 < elems.length) :
    (_snapshot_value (.pyseq isTuple elems) key (d + 1)).children =
      some ((elems.take 200).enum.map (fun p =>
        _snapshot_value p.2 ("[" ++ toString p.1 ++ "]") d) ++
        [moreSentinel (elems.length - 200)]) ∧
    ((elems.take 200).enum.map (fun p =>
      _snapshot_value p.2 ("[" ++ toString p.1 ++ "]") d)).length = 200 ∧
    (∀ (entries : List (String × PyVal)) (k2 : String) (d2 : Nat),
      200 < entries.length →
      (_snapshot_value (.pydict entries) k2 d2).children = none) := by
  refine ⟨by simp [_snapshot_value, h], ?_, ?_⟩
  · simp [List.enum_length, Nat.min_eq_left (Nat.le_of_lt h)]
  · intro entries k2 d2 h2
    cases d2 with
    | zero => simp [_snapshot_value]
    | succ d2 => simp [_snapshot_value, Nat.not_le.mpr h2]

/-- Witness for C6 (amended) on a concrete 201-element list at depth 1. -/
theorem C6_truncation_witness :
    200 < c6BigSeq.length ∧
    (_snapshot_value (.pyseq false c6BigSeq) "k" 1).children =
      some ((c6BigSeq.take 200).enum.map (fun p =>
        _snapshot_value p.2 ("[" ++ toString p.1 ++ "]") 0) ++
        [moreSentinel (c6BigSeq.length - 200)]) :=
  ⟨by simp [c6BigSeq],
   (C6_truncation false c6BigSeq "k" 0 (by simp [c6BigSeq])).1⟩

/- ── C7: presence of numeric aggregates ───────────────────────────── -/

/-- Counterexample to claim C7: a list containing one non-empty tensor is
a sequence, not numeric array-like data, yet the source's homogeneous
list aggregation (lines 119-143) computes and records all four numeric
aggregates for it. -/
theorem C7_counterexample :
    statsPresent (_snapshot_value c7SeqOfTensor "x" 2) = true ∧
    isNumericArrayLike c7SeqOfTensor = false :=
  ⟨rfl, rfl⟩

theorem seqAggStats_isSome (b : Bool) (elems : List PyVal) :
    (seqAggStats elems).1.isSome = aggStatsPresent (.pyseq b elems) ∧
    (seqAggStats elems).2.1.isSome = aggStatsPresent (.pyseq b elems) ∧
    (seqAggStats elems).2.2.1.isSome = aggStatsPresent (.pyseq b elems) ∧
    (seqAggStats elems).2.2.2.isSome = aggStatsPresent (.pyseq b elems) := by
  cases elems with
  | nil => simp [seqAggStats, aggStatsPresent]
  | cons first rest =>
    cases first with
    | tensor dt es sh data c =>
      by_cases hc : (!(nonEmptyTensors (.tensor dt es sh data c :: rest)).isEmpty &&
          (nonEmptyTensors (.tensor dt es sh data c :: rest)).all fun p => p.2) = true
      · simp [seqAggStats, aggStatsPresent, hc, tensorStatQuad]
      · simp only [Bool.not_eq_true] at hc
        simp [seqAggStats, aggStatsPresent, hc]
    | ndarr dt nb sh data c =>
      by_cases hc : (!(nonEmptyArrays (.ndarr dt nb sh data c :: rest)).isEmpty &&
          (nonEmptyArrays (.ndarr dt nb sh data c :: rest)).all fun p => p.2) = true
      · simp [seqAggStats, aggStatsPresent, hc, ndarrStatQuad]
      · simp only [Bool.not_eq_true] at hc
        simp [seqAggStats, aggStatsPresent, hc]
    | pydict entries => simp [seqAggStats, aggStatsPresent]
    | pyseq b2 elems2 => simp [seqAggStats, aggStatsPresent]
    | pyscalar ty rep => simp [seqAggStats, aggStatsPresent]
    | pyother ty rep => simp [seqAggStats, aggStatsPresent]

/-- Amended claim C7: the four aggregate fields are present or absent
together, and they are present exactly when the source's aggregation
condition holds — the value is a non-empty tensor/array whose float cast
succeeds, or a list/tuple whose first element is a tensor (resp. array)
and whose filtered non-empty tensors (arrays) form a non-empty,
all-castable collection.  In particular, for an empty numeric array all
four aggregates are absent. -/
theorem C7_aggregate_presence :
    (∀ (v : PyVal) (key : String) (d : Nat),
      (_snapshot_value v key d).minValue.isSome = aggStatsPresent v ∧
      (_snapshot_value v key d).maxValue.isSome = aggStatsPresent v ∧
      (_snapshot_value v key d).meanValue.isSome = aggStatsPresent v ∧
      (_snapshot_value v key d).stdValue.isSome = aggStatsPresent v) ∧
    (∀ (dt : String) (es : Nat) (sh : List Nat) (c : Bool) (k2 : String) (d2 : Nat),
      statsPresent (_snapshot_value (.tensor dt es sh [] c) k2 d2) = false ∧
      statsPresent (_snapshot_value (.ndarr dt es sh [] c) k2 d2) = false) := by
  constructor
  · intro v key d
    cases v with
    | tensor dt es sh data c =>
      by_cases hc : (c && !data.isEmpty) = true
      · simp [_snapshot_value, aggStatsPresent, hc, tensorStatQuad]
      · simp only [Bool.not_eq_true] at hc
        simp [_snapshot_value, aggStatsPresent, hc]
    | ndarr dt nb sh data c =>
      by_cases hc : (c && !data.isEmpty) = true
      · simp [_snapshot_value, aggStatsPresent, hc, ndarrStatQuad]
      · simp only [Bool.not_eq_true] at hc
        simp [_snapshot_value, aggStatsPresent, hc]
    | pydict entries => cases d <;> simp [_snapshot_value, aggStatsPresent]
    | pyseq b elems =>
      have h := seqAggStats_isSome b elems
      cases d <;>
        · simp only [_snapshot_value]
          exact ⟨h.1, h.2.1, h.2.2.1, h.2.2.2⟩
    | pyscalar ty rep => simp [_snapshot_value, aggStatsPresent]
    | pyother ty rep => simp [_snapshot_value, aggStatsPresent]
  · intro dt es sh c k2 d2
    constructor <;> simp [_snapshot_value, statsPresent]

/- ── C5: totality, depth cap, swallowed statistics ────────────────── -/

theorem infoDepth_eq (i : Info) :
    infoDepth i = match i.children with
      | none => 0
      | some cs => 1 + infoListDepth cs := by
  obtain ⟨k, pt, sh, dt, mn, mx, me, sd, pv, sb, ch⟩ := i
  cases ch <;> simp [infoDepth]

theorem infoListDepth_le {cs : List Info} {d : Nat}
    (h : ∀ i ∈ cs, infoDepth i ≤ d) : infoListDepth cs ≤ d := by
  induction cs with
  | nil => simp [infoListDepth]
  | cons a t ih =>
    simp only [infoListDepth]
    exact max_le (h a (List.mem_cons_self a t))
      (ih fun i hi => h i (List.mem_cons_of_mem a hi))

theorem children_depth_zero (v : PyVal) (key : String) :
    (_snapshot_value v key 0).children = none := by
  cases v <;> simp [_snapshot_value]

theorem snapshot_infoDepth_le (d : Nat) : ∀ (v : PyVal) (key : String),
    infoDepth (_snapshot_value v key d) ≤ d := by
  induction d with
  | zero =>
    intro v key
    rw [infoDepth_eq, children_depth_zero]
  | succ d ih =>
    intro v key
    rw [infoDepth_eq]
    cases v with
    | tensor dt es sh data c => simp [_snapshot_value]
    | ndarr dt nb sh data c => simp [_snapshot_value]
    | pydict entries =>
      simp only [_snapshot_value]
      by_cases hl : entries.length ≤ 200
      · simp only [hl, if_true]
        have hb : infoListDepth
            (entries.map fun kv => _snapshot_value kv.2 kv.1 d) ≤ d := by
          apply infoListDepth_le
          intro i hi
          obtain ⟨kv, _, rfl⟩ := List.mem_map.mp hi
          exact ih kv.2 kv.1
        omega
      · simp [hl]
    | pyseq b elems =>
      simp only [_snapshot_value]
      have hkids : ∀ i ∈ (elems.take 200).enum.map (fun p =>
          _snapshot_value p.2 ("[" ++ toString p.1 ++ "]") d),
          infoDepth i ≤ d := by
        intro i hi
        obtain ⟨p, _, rfl⟩ := List.mem_map.mp hi
        exact ih p.2 _
      by_cases hl : 200 < elems.length
      · simp only [hl, if_true]
        have hb : infoListDepth ((elems.take 200).enum.map (fun p =>
            _snapshot_value p.2 ("[" ++ toString p.1 ++ "]") d) ++
            [moreSentinel (elems.length - 200)]) ≤ d := by
          apply infoListDepth_le
          intro i hi
          rcases List.mem_append.mp hi with hk | hs
          · exact hkids i hk
          · have : i = moreSentinel (elems.length - 200) := by simpa using hs
            subst this
            simp [infoDepth_eq, moreSentinel]
        omega
      · simp only [hl, if_false]
        have hb := infoListDepth_le hkids
        omega
    | pyscalar ty rep => simp [_snapshot_value]
    | pyother ty rep => simp [_snapshot_value]

/-- Counterexample to claim C5: the snapshotter does not return a
descriptor for every input value.  An exotic object whose `__repr__`
raises reaches the final else branch, where line 159 calls
`repr(v)[:100]` outside any `try/except`; the exception propagates out
of `_snapshot_value` (and on through `_snapshot_entry`'s field
comprehension at line 167 and `_probe_node` at line 313) instead of
being swallowed, so no Value Descriptor is produced. -/
theorem C5_counterexample :
    _snapshot_value_run (.otherReprRaises "mymod.Exotic" "repr exploded") "x" 2 =
      .error "repr exploded" ∧
    (_snapshot_value_run (.otherReprRaises "mymod.Exotic" "repr exploded")
      "x" 2).toOption = none :=
  ⟨rfl, rfl⟩

/-- Amended claim C5: the snapshotter returns a Value Descriptor without
raising exactly for the values all of whose unguarded duck-typed calls
(`repr` at lines 157/159, the dict-protocol calls at lines 96-106)
succeed; on such values every remaining failure point sits inside a
`try/except` (modelled by its guard), so the run is total.  Cyclic
runtime values are representable only through finite unfoldings here;
the depth cap, proven below, is what lets the source terminate on them,
since no recursion happens once the budget hits 0.  The nesting depth of
child descriptors never exceeds the depth argument (default 2), and a
failing statistic computation (`castOk = false`, e.g. a complex dtype
whose float cast raises) is swallowed: all four aggregates are simply
absent while the rest of the descriptor, including the preview, is still
produced. -/
theorem C5_snapshot_guarded_bounded :
    (∀ (obj : PyObj) (key : String) (d : Nat),
      (_snapshot_value_run obj key d).toOption.isSome = obj.isWellBehaved) ∧
    (∀ (v : PyVal) (key : String) (d : Nat),
      _snapshot_value_run (.wellBehaved v) key d =
        .ok (_snapshot_value v key d)) ∧
    (∀ (v : PyVal) (key : String) (d : Nat),
      infoDepth (_snapshot_value v key d) ≤ d) ∧
    (∀ (dt : String) (es : Nat) (sh : List Nat) (data : List Int)
       (key : String) (d : Nat),
      (_snapshot_value (.tensor dt es sh data false) key d).minValue = none ∧
      (_snapshot_value (.tensor dt es sh data false) key d).maxValue = none ∧
      (_snapshot_value (.tensor dt es sh data false) key d).meanValue = none ∧
      (_snapshot_value (.tensor dt es sh data false) key d).stdValue = none ∧
      (_snapshot_value (.tensor dt es sh data false) key d).preview =
        some (toString (data.take 8))) ∧
    (∀ (dt : String) (nb : Nat) (sh : List Nat) (data : List Int)
       (key : String) (d : Nat),
      (_snapshot_value (.ndarr dt nb sh data false) key d).minValue = none ∧
      (_snapshot_value (.ndarr dt nb sh data false) key d).maxValue = none ∧
      (_snapshot_value (.ndarr dt nb sh data false) key d).meanValue = none ∧
      (_snapshot_value (.ndarr dt nb sh data false) key d).stdValue = none ∧
      (_snapshot_value (.ndarr dt nb sh data false) key d).preview =
        some (toString (data.take 8))) := by
  refine ⟨?_, fun v key d => rfl,
    fun v key d => snapshot_infoDepth_le d v key, ?_, ?_⟩
  · intro obj key d
    cases obj <;> rfl
  · intro dt es sh data key d
    simp [_snapshot_value]
  · intro dt nb sh data key d
    simp [_snapshot_value]

/- ── C10: sorted field order in entry snapshots ───────────────────── -/

theorem charsLe_total : ∀ a b : List Char, charsLe a b = true ∨ charsLe b a = true := by
  intro a
  induction a with
  | nil => intro b; left; simp [charsLe]
  | cons x xs ih =>
    intro b
    cases b with
    | nil => right; simp [charsLe]
    | cons y ys =>
      rcases lt_trichotomy x y with h | h | h
      · left; simp [charsLe, h]
      · subst h
        rcases ih ys with h2 | h2
        · left; simp [charsLe, h2]
        · right; simp [charsLe, h2]
      · right; simp [charsLe, h]

theorem charsLe_trans : ∀ a b c : List Char,
    charsLe a b = true → charsLe b c = true → charsLe a c = true := by
  intro a
  induction a with
  | nil => intro b c _ _; simp [charsLe]
  | cons x xs ih =>
    intro b c hab hbc
    cases b with
    | nil => simp [charsLe] at hab
    | cons y ys =>
      cases c with
      | nil => simp [charsLe] at hbc
      | cons z zs =>
        by_cases h1 : x < y
        · by_cases h2 : y < z
          · simp [charsLe, lt_trans h1 h2]
          · by_cases h3 : y = z
            · subst h3; simp [charsLe, h1]
            · simp [charsLe, h2, h3] at hbc
        · by_cases h3 : x = y
          · subst h3
            simp only [charsLe, h1, if_false, if_pos rfl] at hab
            by_cases h2 : x < z
            · simp [charsLe, h2]
            · by_cases h4 : x = z
              · subst h4
                simp only [charsLe, h2, if_false, if_pos rfl] at hbc
                simp [charsLe, h2, ih ys zs hab hbc]
              · simp [charsLe, h2, h4] at hbc
          · simp [charsLe, h1, h3] at hab

theorem charsLe_antisymm : ∀ a b : List Char,
    charsLe a b = true → charsLe b a = true → a = b := by
  intro a
  induction a with
  | nil =>
    intro b _ hba
    cases b with
    | nil => rfl
    | cons y ys => simp [charsLe] at hba
  | cons x xs ih =>
    intro b hab hba
    cases b with
    | nil => simp [charsLe] at hab
    | cons y ys =>
      by_cases h1 : x < y
      · simp [charsLe, asymm h1, (ne_of_lt h1).symm] at hba
      · by_cases h2 : x = y
        · subst h2
          simp only [charsLe, h1, if_false, if_pos rfl] at hab hba
          rw [ih ys hab hba]
        · simp [charsLe, h1, h2] at hab

theorem snapshot_value_key (v : PyVal) (key : String) (d : Nat) :
    (_snapshot_value v key d).key = key := by
  cases v <;> cases d <;> simp [_snapshot_value]

theorem lookup_eq_none_py {l : List (String × PyVal)} {k : String} :
    l.lookup k = none ↔ k ∉ l.map Prod.fst := by
  induction l with
  | nil => simp
  | cons hd tl ih =>
    obtain ⟨k2, v⟩ := hd
    by_cases h : k = k2
    · subst h; simp [List.lookup]
    · simp [List.lookup, beq_false_of_ne h, ih, h]

theorem lookup_some_mem_py {l : List (String × PyVal)} {k : String} {v : PyVal}
    (hnd : (l.map Prod.fst).Nodup) : l.lookup k = some v ↔ (k, v) ∈ l := by
  induction l with
  | nil => simp
  | cons hd tl ih =>
    obtain ⟨k2, w⟩ := hd
    simp only [List.map_cons, List.nodup_cons] at hnd
    by_cases h : k = k2
    · subst h
      simp only [List.lookup, beq_self_eq_true]
      constructor
      · intro hv
        injection hv with hv
        subst hv
        exact List.mem_cons_self _ _
      · intro hv
        rcases List.mem_cons.mp hv with hv | hv
        · injection hv with _ hv; subst hv; rfl
        · exact absurd (List.mem_map_of_mem Prod.fst hv) hnd.1
    · simp only [List.lookup, beq_false_of_ne h]
      rw [ih hnd.2]
      constructor
      · exact List.mem_cons_of_mem _
      · intro hv
        rcases List.mem_cons.mp hv with hv | hv
        · exact absurd (congrArg Prod.fst hv) h
        · exact hv

theorem lookup_eq_of_perm {l1 l2 : List (String × PyVal)} (hp : l1.Perm l2)
    (hnd : (l1.map Prod.fst).Nodup) (k : String) : l1.lookup k = l2.lookup k := by
  have hnd2 : (l2.map Prod.fst).Nodup := ((hp.map Prod.fst).nodup_iff).mp hnd
  cases h1 : l1.lookup k with
  | some v =>
    exact ((lookup_some_mem_py hnd2).mpr
      (hp.mem_iff.mp ((lookup_some_mem_py hnd).mp h1))).symm
  | none =>
    symm
    rw [lookup_eq_none_py] at h1 ⊢
    exact fun hm => h1 (((hp.map Prod.fst).mem_iff).mpr hm)

/-- Claim C10: the field descriptors of an entry snapshot are listed in
sorted (code-point lexicographic) order of field name; the snapshot is
independent of the entry's own key order (for entries with no duplicate
field names); and an entry that does not expose a `keys()` method yields
an empty field list rather than an error. -/
theorem C10_sorted_fields :
    (∀ (e : Entry) (label : String) (i : Nat),
      List.Sorted (fun a b => strLe a b = true)
        ((_snapshot_entry e label i).fields.map Info.key)) ∧
    (∀ (e1 e2 : Entry) (label : String) (i : Nat),
      e1.fields.Perm e2.fields → (e1.fields.map Prod.fst).Nodup →
      e1.is_batched = e2.is_batched → e1.hasKeys = e2.hasKeys →
      _snapshot_entry e1 label i = _snapshot_entry e2 label i) ∧
    (∀ (e : Entry) (label : String) (i : Nat), e.hasKeys = false →
      (_snapshot_entry e label i).fields = []) := by
  haveI instTot : IsTotal String (fun a b => strLe a b = true) :=
    ⟨fun a b => charsLe_total a.data b.data⟩
  haveI instTrans : IsTrans String (fun a b => strLe a b = true) :=
    ⟨fun a b c hab hbc => charsLe_trans a.data b.data c.data hab hbc⟩
  haveI instAnti : IsAntisymm String (fun a b => strLe a b = true) :=
    ⟨fun a b hab hba => String.ext (charsLe_antisymm a.data b.data hab hba)⟩
  have hmapkey : ∀ (e : Entry) (label : String) (i : Nat),
      (_snapshot_entry e label i).fields.map Info.key =
        (if e.hasKeys then sortKeys (e.fields.map Prod.fst) else []) := by
    intro e label i
    simp only [_snapshot_entry, List.map_map]
    rw [List.map_congr_left (fun k _ => ?_), List.map_id]
    exact snapshot_value_key _ k 2
  refine ⟨?_, ?_, ?_⟩
  · intro e label i
    rw [hmapkey]
    by_cases hk : e.hasKeys
    · simp only [hk, if_true]
      exact List.sorted_insertionSort _ _
    · simp [hk]
  · intro e1 e2 label i hp hnd hb hk
    have hperm : (e1.fields.map Prod.fst).Perm (e2.fields.map Prod.fst) :=
      hp.map Prod.fst
    have hsort : sortKeys (e1.fields.map Prod.fst) =
        sortKeys (e2.fields.map Prod.fst) :=
      @List.eq_of_perm_of_sorted String (fun a b => strLe a b = true) instAnti _ _
        (((List.perm_insertionSort _ _).trans hperm).trans
          (List.perm_insertionSort _ _).symm)
        (List.sorted_insertionSort _ _) (List.sorted_insertionSort _ _)
    have hget : ∀ k : String, entryGet e1 k = entryGet e2 k := by
      intro k
      simp only [entryGet, lookup_eq_of_perm hp hnd k]
    simp only [_snapshot_entry, hk, hb, hsort]
    congr 1
    apply List.map_congr_left
    intro k _
    rw [hget]
  · intro e label i h
    simp [_snapshot_entry, h]

/-- Witness for C10: two concrete entries with the same bindings in
opposite orders produce identical snapshots, and an entry without
`keys()` yields an empty field list. -/
theorem C10_sorted_fields_witness :
    c10Entry1.fields.Perm c10Entry2.fields ∧
    (c10Entry1.fields.map Prod.fst).Nodup ∧
    _snapshot_entry c10Entry1 "L" 0 = _snapshot_entry c10Entry2 "L" 0 ∧
    (_snapshot_entry c10NoKeys "L" 0).fields = [] :=
  ⟨List.Perm.swap _ _ [], by decide,
   C10_sorted_fields.2.1 c10Entry1 c10Entry2 "L" 0 (List.Perm.swap _ _ [])
     (by decide) rfl rfl,
   C10_sorted_fields.2.2 c10NoKeys "L" 0 rfl⟩

/- ── C9: path overrides ───────────────────────────────────────────── -/

theorem overrideFields_lookup (ov : List (String × String))
    (l : List (String × CVal)) (k : String) :
    (overrideFields ov l).lookup k =
      (l.lookup k).map fun v => if k = "params" then overrideParams ov v else v := by
  induction l with
  | nil => simp [overrideFields]
  | cons hd tl ih =>
    obtain ⟨k2, v⟩ := hd
    by_cases h : k = k2
    · subst h; simp [overrideFields, List.lookup]
    · simp [overrideFields, List.lookup, beq_false_of_ne h, ih]

theorem overrideParamEntries_lookup (ov : List (String × String))
    (l : List (String × CVal)) (k : String) :
    (overrideParamEntries ov l).lookup k =
      (l.lookup k).map fun v => overrideEntry ov k v := by
  induction l with
  | nil => simp [overrideParamEntries]
  | cons hd tl ih =>
    obtain ⟨k2, v⟩ := hd
    by_cases h : k = k2
    · subst h; simp [overrideParamEntries, List.lookup]
    · simp [overrideParamEntries, List.lookup, beq_false_of_ne h, ih]

/-- Claim C9: `_apply_overrides` replaces `params.root` with the mapped
value exactly when the current root value matches an override key — a
matching string root becomes the mapped value, a non-matching string
root is left untouched — and the whole operation is the identity when
the override mapping is empty. -/
theorem C9_apply_overrides :
    (∀ (ov : List (String × String)) (fields pf : List (String × CVal))
       (r w : String),
      ov ≠ [] →
      fields.lookup "params" = some (.node pf) →
      pf.lookup "root" = some (.vstr r) →
      ov.lookup r = some w →
      navigate (_apply_overrides ov (.node fields)) ["params", "root"] =
        .ok (.vstr w)) ∧
    (∀ (ov : List (String × String)) (fields pf : List (String × CVal))
       (r : String),
      fields.lookup "params" = some (.node pf) →
      pf.lookup "root" = some (.vstr r) →
      ov.lookup r = none →
      navigate (_apply_overrides ov (.node fields)) ["params", "root"] =
        .ok (.vstr r)) ∧
    (∀ v : CVal, _apply_overrides [] v = v) := by
  have hnav : ∀ (ov : List (String × String)) (fields pf : List (String × CVal))
      (r : String),
      fields.lookup "params" = some (.node pf) →
      pf.lookup "root" = some (.vstr r) →
      navigate (applyNode ov (.node fields)) ["params", "root"] =
        .ok (overrideEntry ov "root" (.vstr r)) := by
    intro ov fields pf r hp hr
    simp [applyNode, navigate, overrideFields_lookup, hp, overrideParams,
      overrideParamEntries_lookup, hr]
  refine ⟨?_, ?_, ?_⟩
  · intro ov fields pf r w hne hp hr hw
    have hov : ov.isEmpty = false := by
      cases ov with
      | nil => exact absurd rfl hne
      | cons a t => rfl
    rw [_apply_overrides, hov, if_neg (by simp), hnav ov fields pf r hp hr]
    simp [overrideEntry, strOf, hw]
  · intro ov fields pf r hp hr hw
    by_cases hov : ov.isEmpty
    · rw [_apply_overrides, if_pos hov]
      simp [navigate, hp, hr]
    · rw [_apply_overrides, if_neg hov, hnav ov fields pf r hp hr]
      simp [overrideEntry, strOf, hw]
  · intro v
    simp [_apply_overrides]

/-- Witness for C9: the override mapping
`{"/old/path": "/new/path"}` rewrites `params.root` of `c9Node`, and a
mapping with no matching key leaves the root unchanged. -/
theorem C9_apply_overrides_witness :
    navigate (_apply_overrides [("/old/path", "/new/path")] c9Node)
      ["params", "root"] = .ok (.vstr "/new/path") ∧
    navigate (_apply_overrides [("/other", "/new/path")] c9Node)
      ["params", "root"] = .ok (.vstr "/old/path") ∧
    _apply_overrides [] c9Node = c9Node :=
  ⟨C9_apply_overrides.1 [("/old/path", "/new/path")] _ _ "/old/path" "/new/path"
     (by simp) rfl rfl rfl,
   C9_apply_overrides.2.1 [("/other", "/new/path")] _ _ "/old/path" rfl rfl rfl,
   C9_apply_overrides.2.2 c9Node⟩

/- ── C1: strip / restore discipline ───────────────────────────────── -/

theorem isNull_iff (v : CVal) : v.isNull = true ↔ v = .vnull := by
  cases v <;> simp [CVal.isNull]

theorem setKey_append_single (X : List (String × CVal)) {k k2 : String}
    (h : k2 ≠ k) (v w : CVal) :
    setKey (X ++ [(k2, w)]) k v = setKey X k v ++ [(k2, w)] := by
  induction X with
  | nil => simp [setKey, h]
  | cons hd tl ih =>
    obtain ⟨k3, v3⟩ := hd
    by_cases h3 : k3 = k
    · simp [setKey, h3]
    · simp [setKey, h3, ih]

theorem setKeyOrAdd_setKey_comm (X : List (String × CVal)) {k k2 : String}
    (h : k2 ≠ k) (v w : CVal) :
    setKeyOrAdd (setKey X k v) k2 w = setKey (setKeyOrAdd X k2 w) k v := by
  have hl : ((setKey X k v).lookup k2) = X.lookup k2 := lookup_setKey_ne X h v
  by_cases hp : (X.lookup k2).isSome
  · rw [setKeyOrAdd, hl, if_pos hp, setKeyOrAdd, if_pos hp,
      setKey_comm X (fun hh => h hh.symm)]
  · rw [setKeyOrAdd, hl, if_neg hp, setKeyOrAdd, if_neg hp,
      setKey_append_single X h]

theorem restoreCache_setKey (sc : List (String × CVal)) :
    ∀ (X : List (String × CVal)) {k : String},
    (∀ p ∈ sc, p.1 ≠ k) → ∀ v : CVal,
    restoreCache sc (setKey X k v) = setKey (restoreCache sc X) k v := by
  induction sc with
  | nil => intro X k _ v; rfl
  | cons hd tl ih =>
    intro X k hk v
    obtain ⟨k2, w⟩ := hd
    have h2 : k2 ≠ k := hk (k2, w) (List.mem_cons_self _ _)
    simp only [restoreCache, List.foldl_cons]
    rw [setKeyOrAdd_setKey_comm X h2]
    exact ih (setKeyOrAdd X k2 w) (fun p hp => hk p (List.mem_cons_of_mem _ hp)) v

theorem stripCache_keys (pf : List (String × CVal)) :
    ∀ p ∈ (stripCache pf).2, p.1 = "cache_dir" ∨ p.1 = "recache" := by
  intro p hp
  simp only [stripCache] at hp
  cases h1 : pf.lookup "cache_dir" <;> rw [h1] at hp <;> simp only at hp
  · cases h2 : pf.lookup "recache" <;> rw [h2] at hp <;> simp only at hp
    · simp at hp
    · simp at hp
      subst hp
      right
      rfl
  · cases h2 : (setKey pf "cache_dir" CVal.vnull).lookup "recache" <;>
      rw [h2] at hp <;> simp only at hp
    · simp at hp
      subst hp
      left
      rfl
    · rcases (List.mem_append.mp hp) with hp | hp <;> simp at hp <;> subst hp
      · left; rfl
      · right; rfl

theorem stripCache_roundtrip (pf : List (String × CVal)) :
    restoreCache (stripCache pf).2 (stripCache pf).1 = pf := by
  have hne : ("recache" : String) ≠ "cache_dir" := by decide
  cases h1 : pf.lookup "cache_dir" with
  | none =>
    cases h2 : pf.lookup "recache" with
    | none => simp only [stripCache, h1, h2]; rfl
    | some rv =>
      simp only [stripCache, h1, h2]
      show setKeyOrAdd (setKey pf "recache" (.vbool false)) "recache" rv = pf
      rw [setKeyOrAdd_present _ _ _ (by rw [lookup_setKey_eq, h2]; rfl),
        setKey_setKey, setKey_same _ _ _ h2]
  | some cv =>
    have h1' : (setKey pf "cache_dir" CVal.vnull).lookup "cache_dir" = some .vnull := by
      rw [lookup_setKey_eq, h1]; rfl
    cases h2 : (setKey pf "cache_dir" CVal.vnull).lookup "recache" with
    | none =>
      simp only [stripCache, h1, h2]
      show setKeyOrAdd (setKey pf "cache_dir" .vnull) "cache_dir" cv = pf
      rw [setKeyOrAdd_present _ _ _ (by rw [h1']; rfl),
        setKey_setKey, setKey_same _ _ _ h1]
    | some rv =>
      have h2' : pf.lookup "recache" = some rv := by
        rw [← lookup_setKey_ne pf hne CVal.vnull]; exact h2
      simp only [stripCache, h1, h2]
      show setKeyOrAdd (setKeyOrAdd
        (setKey (setKey pf "cache_dir" .vnull) "recache" (.vbool false))
        "cache_dir" cv) "recache" rv = pf
      have e1 : setKeyOrAdd
          (setKey (setKey pf "cache_dir" .vnull) "recache" (.vbool false))
          "cache_dir" cv = setKey pf "recache" (.vbool false) := by
        rw [setKeyOrAdd_present _ _ _
          (by rw [lookup_setKey_ne _ (fun hh => hne hh.symm), h1']; rfl)]
        rw [setKey_comm _ hne, setKey_setKey, setKey_same _ _ _ h1]
      rw [e1, setKeyOrAdd_present _ _ _ (by rw [lookup_setKey_eq, h2']; rfl),
        setKey_setKey, setKey_same _ _ _ h2']

theorem params_roundtrip (pf : List (String × CVal)) (tv : CVal)
    (htr : pf.lookup "transforms" = some tv) :
    restoreCache (stripCache (setKey pf "transforms" .vnull)).2
      (setKey (stripCache (setKey pf "transforms" .vnull)).1 "transforms" tv) = pf := by
  have hkeys : ∀ p ∈ (stripCache (setKey pf "transforms" .vnull)).2,
      p.1 ≠ "transforms" := by
    intro p hp
    rcases stripCache_keys _ p hp with h | h <;> rw [h] <;> decide
  rw [restoreCache_setKey _ _ hkeys, stripCache_roundtrip, setKey_setKey,
    setKey_same _ _ _ htr]

theorem restoreCachePhase_set (fields pf X : List (String × CVal))
    (sc : List (String × CVal)) (hp : fields.lookup "params" = some (.node pf)) :
    restoreCachePhase (setKey fields "params" (.node X)) sc =
      setKey fields "params" (.node (restoreCache sc X)) := by
  simp only [restoreCachePhase]
  rw [lookup_setKey_eq, hp]
  simp only [Option.map]
  rw [setKey_setKey]

theorem strip_restore_id (node : CVal) :
    restore (stripSideEffects node).1 (stripSideEffects node).2 = node := by
  have hne_tp : ("transforms" : String) ≠ "params" := by decide
  cases node with
  | vlist l => rfl
  | vstr s => rfl
  | vbool b => rfl
  | vint n => rfl
  | vnull => rfl
  | node fields =>
    cases hp : fields.lookup "params" with
    | none =>
      cases httr : fields.lookup "transforms" with
      | none =>
        simp only [stripSideEffects, hp, httr, CVal.isNull, if_true]
        simp only [restore, restoreTransforms, CVal.isNull, if_true,
          restoreCachePhase, restoreCache, List.foldl_nil, hp]
      | some ttv =>
        by_cases hn : ttv.isNull = true
        · rw [(isNull_iff ttv).mp hn] at httr
          simp only [stripSideEffects, hp, httr, CVal.isNull, if_true]
          simp only [restore, restoreTransforms, CVal.isNull, if_true]
          rw [setKey_same _ _ _ httr]
          simp only [restoreCachePhase, restoreCache, List.foldl_nil, hp]
        · simp only [stripSideEffects, hp, httr, CVal.isNull, if_true]
          simp only [restore, restoreTransforms]
          rw [if_neg (by simp [hn])]
          rw [if_neg (by decide : ¬(some "node" = some "params"))]
          rw [setKey_setKey, setKey_same _ _ _ httr]
          simp only [restoreCachePhase, restoreCache, List.foldl_nil, hp]
    | some pv =>
      cases pv
      case node pf =>
        cases htr : pf.lookup "transforms" with
        | some tv =>
          by_cases hnull : tv.isNull = true
          · rw [(isNull_iff tv).mp hnull] at htr
            simp only [stripSideEffects, stripParams, hp, htr, CVal.isNull, if_true]
            rw [setKey_same _ _ _ htr]
            rw [lookup_setKey_ne _ hne_tp]
            cases httr2 : fields.lookup "transforms" with
            | none =>
              simp only [restore, restoreTransforms, CVal.isNull, if_true]
              rw [restoreCachePhase_set fields pf _ _ hp, stripCache_roundtrip,
                setKey_same _ _ _ hp]
            | some ttv =>
              by_cases hn2 : ttv.isNull = true
              · have heq := (isNull_iff ttv).mp hn2
                subst heq
                simp only [restore, restoreTransforms, CVal.isNull, if_true]
                rw [setKey_same _ _ _ (by
                  rw [lookup_setKey_ne _ hne_tp]; exact httr2)]
                rw [restoreCachePhase_set fields pf _ _ hp, stripCache_roundtrip,
                  setKey_same _ _ _ hp]
              · simp only [restore, restoreTransforms]
                rw [if_neg (by simp [hn2])]
                rw [if_neg (by decide : ¬(some "node" = some "params"))]
                rw [setKey_setKey, setKey_same _ _ _ (by
                  rw [lookup_setKey_ne _ hne_tp]; exact httr2)]
                rw [restoreCachePhase_set fields pf _ _ hp, stripCache_roundtrip,
                  setKey_same _ _ _ hp]
          · simp only [stripSideEffects, stripParams, hp, htr]
            rw [if_neg (by simp [hnull])]
            simp only [restore, restoreTransforms]
            rw [if_neg (by simp [hnull])]
            simp only [if_true]
            rw [lookup_setKey_eq, hp]
            simp only [Option.map]
            rw [setKey_setKey]
            rw [restoreCachePhase_set fields pf _ _ hp]
            rw [params_roundtrip pf tv htr, setKey_same _ _ _ hp]
        | none =>
          simp only [stripSideEffects, stripParams, hp, htr, CVal.isNull, if_true]
          rw [lookup_setKey_ne _ hne_tp]
          cases httr2 : fields.lookup "transforms" with
          | none =>
            simp only [restore, restoreTransforms, CVal.isNull, if_true]
            rw [restoreCachePhase_set fields pf _ _ hp, stripCache_roundtrip,
              setKey_same _ _ _ hp]
          | some ttv =>
            by_cases hn2 : ttv.isNull = true
            · have heq := (isNull_iff ttv).mp hn2
              subst heq
              simp only [restore, restoreTransforms, CVal.isNull, if_true]
              rw [setKey_same _ _ _ (by
                rw [lookup_setKey_ne _ hne_tp]; exact httr2)]
              rw [restoreCachePhase_set fields pf _ _ hp, stripCache_roundtrip,
                setKey_same _ _ _ hp]
            · simp only [restore, restoreTransforms]
              rw [if_neg (by simp [hn2])]
              rw [if_neg (by decide : ¬(some "node" = some "params"))]
              rw [setKey_setKey, setKey_same _ _ _ (by
                rw [lookup_setKey_ne _ hne_tp]; exact httr2)]
              rw [restoreCachePhase_set fields pf _ _ hp, stripCache_roundtrip,
                setKey_same _ _ _ hp]
      all_goals {
        cases httr : fields.lookup "transforms" with
        | none =>
          simp only [stripSideEffects, hp, httr, CVal.isNull, if_true]
          simp only [restore, restoreTransforms, CVal.isNull, if_true,
            restoreCachePhase, restoreCache, List.foldl_nil, hp]
        | some ttv =>
          by_cases hn : ttv.isNull = true
          · rw [(isNull_iff ttv).mp hn] at httr
            simp only [stripSideEffects, hp, httr, CVal.isNull, if_true]
            simp only [restore, restoreTransforms, CVal.isNull, if_true]
            rw [setKey_same _ _ _ httr]
            simp only [restoreCachePhase, restoreCache, List.foldl_nil, hp]
          · simp only [stripSideEffects, hp, httr, CVal.isNull, if_true]
            simp only [restore, restoreTransforms]
            rw [if_neg (by simp [hn])]
            rw [if_neg (by decide : ¬(some "node" = some "params"))]
            rw [setKey_setKey, setKey_same _ _ _ httr]
            simp only [restoreCachePhase, restoreCache, List.foldl_nil, hp]
      }

/-- Counterexample to claim C1: with a failing resolver, `_probe_node`
raises at line 297 — which is not inside any `try` — so the restore block
(lines 301-309) never runs on that exit path, and the node is left
stripped: its `params.transforms` still holds `None` instead of the
original transform list, and the final tree differs from the pre-strip
tree. -/
theorem C1_counterexample :
    navigate c1Node ["params", "transforms"] = .ok (.vlist [.vstr "t1"]) ∧
    navigate (stripInstantiateRestore c1FailInst c1Node).1
      ["params", "transforms"] = .ok .vnull ∧
    (stripInstantiateRestore c1FailInst c1Node).1 ≠ c1Node := by
  refine ⟨rfl, rfl, fun h => ?_⟩
  have h2 : navigate (stripInstantiateRestore c1FailInst c1Node).1
      ["params", "transforms"] = navigate c1Node ["params", "transforms"] := by
    rw [h]
  have h3 : (Except.ok CVal.vnull : Except String CVal) =
      .ok (.vlist [.vstr "t1"]) := h2
  injection h3 with h4
  exact CVal.noConfusion h4

/-- Amended claim C1: `restore` after `stripSideEffects` is a perfect
inverse — for every config node, restoring the strip's undo token yields
a tree field-for-field identical to the pre-strip state — and the restore
does run when instantiation succeeds.  But it is not run on every exit
path: when instantiating the node's live object raises, the exception
propagates out of `_probe_node` before the restore block, and the node is
left in its stripped state. -/
theorem C1_strip_restore :
    (∀ node : CVal,
      restore (stripSideEffects node).1 (stripSideEffects node).2 = node) ∧
    (∀ (inst : CVal → Except String Unit) (node : CVal) (u : Unit),
      inst (stripSideEffects node).1 = .ok u →
      stripInstantiateRestore inst node = (node, true)) ∧
    (∀ (inst : CVal → Except String Unit) (node : CVal) (e : String),
      inst (stripSideEffects node).1 = .error e →
      stripInstantiateRestore inst node = ((stripSideEffects node).1, false)) := by
  refine ⟨strip_restore_id, ?_, ?_⟩
  · intro inst node u h
    simp [stripInstantiateRestore, h, strip_restore_id]
  · intro inst node e h
    simp [stripInstantiateRestore, h]

/-- Witness for C1 (amended): with a succeeding resolver, the concrete
node `c1Node` — transforms, cache_dir and recache all set — comes back
unchanged. -/
theorem C1_strip_restore_witness :
    (fun _ : CVal => (Except.ok () : Except String Unit))
      (stripSideEffects c1Node).1 = .ok () ∧
    stripInstantiateRestore (fun _ => .ok ()) c1Node = (c1Node, true) :=
  ⟨rfl, C1_strip_restore.2.1 (fun _ => .ok ()) c1Node () rfl⟩
